import Mathlib

/-!
Shallow embedding of the spreadsheet-sync client and the upload route of the
repository, together with theorems settling the specification claims.

Source files embedded:
* `src/client/services/googleSheets.ts`  — direct-mode Google Sheets client
* `src/unnamed/part_000`                 — proxy-mode Google Sheets client
* `src/server/routes/upload.ts`          — image upload / delete route
-/

namespace GoogleSheets

/-- Log side effects emitted through `console.warn` / `console.error` /
`console.log` in the source. -/
inductive LogEvent where
  | warn (msg : String)
  | error (msg : String)
  | log (msg : String)
deriving DecidableEq, Repr

/-- The part of `GoogleSheetsConfig` the claims depend on: the spreadsheet id
and the API key, both read from environment variables with `""` as default.
The five sheet names are fixed constants (see `sheetNames*` below). -/
structure Config where
  spreadsheetId : String
  apiKey : String
deriving DecidableEq, Repr

def sheetNamesContacts : String := "Contacts"
def sheetNamesJobApplications : String := "Job Applications"
def sheetNamesGetStartedRequests : String := "Get Started Requests"
def sheetNamesResumeUploads : String := "Resume Uploads"
def sheetNamesNewsletter : String := "Newsletter Subscribers"

/-- `isConfigured(): boolean { return !!(config.spreadsheetId && config.apiKey); }`
JavaScript string truthiness: the empty string is falsy, every other string is
truthy, so the double negation yields true iff both strings are non-empty. -/
def isConfigured (c : Config) : Bool :=
  !(c.spreadsheetId == "") && !(c.apiKey == "")

/-- An HTTP response as seen by the `fetch` caller.  `response.ok` is the
standard fetch semantics: status in the range 200–299.  `errorBody` models the
result of `response.json().catch(() => null)`: the optional
`error.message` string of the parsed error payload (which only feeds the log
message, never the control flow). -/
structure HttpResp where
  status : Nat
  errorBody : Option String
deriving DecidableEq, Repr

def HttpResp.ok (r : HttpResp) : Bool :=
  200 ≤ r.status && r.status < 300

/-- Outcome of the single network call `fetch(...)` performed by
`appendToSheet`: either the promise rejects (network exception) or it resolves
to a response. -/
inductive FetchOutcome where
  | throws (err : String)
  | responds (r : HttpResp)
deriving DecidableEq, Repr

/-- Observable trace of one `appendToSheet` call: the boolean it returns, the
logs it writes, whether it performed the network call, and (when it did) the
sheet name and values it sent. -/
structure AppendTrace where
  result : Bool
  logs : List LogEvent
  networkCalled : Bool
  sent : Option (String × List (List String))
deriving DecidableEq, Repr

/-- Body of the `try` block of `appendToSheet` after the configuration gate:
the `fetch`, the `response.ok` test, the 401-specific warning path, and the
`throw new Error(...)` on any other non-success status.  `Except.error`
represents a JavaScript exception propagating out of the `try` block. -/
def appendTryBody (outcome : FetchOutcome) : Except String (Bool × List LogEvent) :=
  match outcome with
  | .throws e => .error e
  | .responds r =>
    if !r.ok then
      if r.status == 401 then
        .ok (false,
          [.warn "⚠️ Google Sheets API Key cannot write data. Read-only access available.",
           .warn "💡 For write access, configure OAuth2 or service account authentication."])
      else
        .error ("Google Sheets API error: " ++ toString r.status ++ " - "
          ++ (r.errorBody.getD "Unknown error"))
    else
      .ok (true, [.log "✅ Successfully synced to Google Sheets"])

/-- `GoogleSheetsService.appendToSheet` of the direct-mode client
(`src/client/services/googleSheets.ts`).  If not configured it warns and
returns false without touching the network; otherwise it performs the fetch
(whose outcome is the parameter `outcome`) and the surrounding `catch` turns
every exception into an error log and `false`. -/
def appendToSheet (cfg : Config) (sheetName : String)
    (values : List (List String)) (outcome : FetchOutcome) : AppendTrace :=
  if !isConfigured cfg then
    { result := false
      logs := [.warn "Google Sheets not configured. Skipping sync."]
      networkCalled := false
      sent := none }
  else
    match appendTryBody outcome with
    | .ok (b, ls) =>
      { result := b, logs := ls, networkCalled := true
        sent := some (sheetName, values) }
    | .error e =>
      { result := false
        logs := [.error ("❌ Error syncing to Google Sheets: " ++ e)]
        networkCalled := true
        sent := some (sheetName, values) }

/-! ### JavaScript timestamp normalization

Every sync method starts its row with `new Date(x).toISOString()`.  We embed
this host primitive for the ISO-8601 UTC input forms the service receives:
a date `YYYY-MM-DD` (interpreted at UTC midnight, as `Date.parse` does) or a
date-time `YYYY-MM-DDTHH:MM[:SS[.fff]]Z`.  Any other string is modelled as an
invalid date, on which `toISOString()` throws a `RangeError` (represented by
`Except.error`); per the spec such a conversion failure propagates to the sync
method's caller. -/

namespace JsDate

def isDigitCh (c : Char) : Bool := '0' ≤ c && c ≤ '9'

def digitsVal (l : List Char) : Nat :=
  l.foldl (fun a c => a * 10 + (c.toNat - 48)) 0

def allDigits (l : List Char) : Bool := l.all isDigitCh

def isLeapYear (y : Nat) : Bool :=
  (y % 4 == 0 && y % 100 != 0) || y % 400 == 0

def daysInMonth (y mo : Nat) : Nat :=
  if mo == 2 then (if isLeapYear y then 29 else 28)
  else if mo == 4 || mo == 6 || mo == 9 || mo == 11 then 30
  else 31

/-- A calendar instant in UTC, the components `toISOString` prints. -/
structure Civil where
  year : Nat
  month : Nat
  day : Nat
  hour : Nat
  minute : Nat
  second : Nat
  ms : Nat
deriving DecidableEq, Repr

/-- Successor day in the civil calendar (used for the `T24:00` form, which
ECMA-262 treats as midnight of the following day). -/
def nextDay (y mo d : Nat) : Nat × Nat × Nat :=
  if d < daysInMonth y mo then (y, mo, d + 1)
  else if mo < 12 then (y, mo + 1, 1)
  else (y + 1, 1, 1)

/-- Parse `HH:MM[:SS[.fff*]]` followed by the terminating `Z`. -/
def parseTime (l : List Char) : Option (Nat × Nat × Nat × Nat) :=
  match l with
  | h1 :: h2 :: ':' :: n1 :: n2 :: rest =>
    if allDigits [h1, h2, n1, n2] then
      let h := digitsVal [h1, h2]
      let mi := digitsVal [n1, n2]
      match rest with
      | ['Z'] => some (h, mi, 0, 0)
      | ':' :: s1 :: s2 :: rest2 =>
        if allDigits [s1, s2] then
          let se := digitsVal [s1, s2]
          match rest2 with
          | ['Z'] => some (h, mi, se, 0)
          | '.' :: rest3 =>
            let ds := rest3.dropLast
            if rest3.getLast? == some 'Z' && !ds.isEmpty && allDigits ds then
              let top := ds.take 3
              some (h, mi, se, digitsVal top * 10 ^ (3 - top.length))
            else none
          | _ => none
        else none
      | _ => none
    else none
  | _ => none

/-- Parse a supported ISO-8601 UTC string into its civil components,
validating calendar ranges the way `Date.parse` does (out-of-range components
give an invalid date, i.e. `none`). -/
def parseCivil (l : List Char) : Option Civil :=
  match l with
  | c1 :: c2 :: c3 :: c4 :: '-' :: m1 :: m2 :: '-' :: e1 :: e2 :: rest =>
    if allDigits [c1, c2, c3, c4, m1, m2, e1, e2] then
      let y := digitsVal [c1, c2, c3, c4]
      let mo := digitsVal [m1, m2]
      let d := digitsVal [e1, e2]
      let time : Option (Nat × Nat × Nat × Nat) :=
        match rest with
        | [] => some (0, 0, 0, 0)
        | 'T' :: rest2 => parseTime rest2
        | _ => none
      match time with
      | none => none
      | some (h, mi, se, ms) =>
        if 1 ≤ mo && mo ≤ 12 && 1 ≤ d && d ≤ daysInMonth y mo
            && mi ≤ 59 && se ≤ 59
            && (h ≤ 23 || (h == 24 && mi == 0 && se == 0 && ms == 0)) then
          if h == 24 then
            match nextDay y mo d with
            | (y', mo', d') => some ⟨y', mo', d', 0, mi, se, ms⟩
          else some ⟨y, mo, d, h, mi, se, ms⟩
        else none
    else none
  | _ => none

def padNat (w n : Nat) : String :=
  let s := toString n
  String.mk (List.replicate (w - s.length) '0') ++ s

def printISO (c : Civil) : String :=
  padNat 4 c.year ++ "-" ++ padNat 2 c.month ++ "-" ++ padNat 2 c.day ++ "T"
    ++ padNat 2 c.hour ++ ":" ++ padNat 2 c.minute ++ ":" ++ padNat 2 c.second
    ++ "." ++ padNat 3 c.ms ++ "Z"

/-- `new Date(s).toISOString()`: normalize a timestamp string to the canonical
ISO-8601 form with milliseconds, or throw `RangeError` on an invalid date. -/
def jsToISOString (s : String) : Except String String :=
  match parseCivil s.data with
  | some c => .ok (printISO c)
  | none => .error "RangeError: Invalid time value"

end JsDate

/-! ### Form payloads and the sync façade (direct mode) -/

/-- JavaScript `x || ""` on an optional string field: `undefined` and `""` are
falsy and map to `""`; any other string is returned unchanged. -/
def jsOrEmpty (o : Option String) : String := o.getD ""

structure Contact where
  name : String
  email : String
  phone : Option String
  company : Option String
  message : String
  created_at : String
deriving DecidableEq, Repr

structure JobApplication where
  full_name : String
  email : String
  phone : String
  position : String
  experience : String
  cover_letter : Option String
  resume_url : Option String
  jobStatus : String
  created_at : String
deriving DecidableEq, Repr

structure GetStartedRequest where
  first_name : String
  last_name : String
  email : String
  company : Option String
  phone : Option String
  job_title : Option String
  message : Option String
  created_at : String
deriving DecidableEq, Repr

structure ResumeUpload where
  full_name : String
  email : String
  phone : Option String
  location : Option String
  position_interested : Option String
  experience_level : Option String
  skills : Option String
  cover_letter : Option String
  linkedin_url : Option String
  portfolio_url : Option String
  resume_url : Option String
  created_at : String
deriving DecidableEq, Repr

structure NewsletterSubscription where
  email : String
  subscribed_at : String
deriving DecidableEq, Repr

/-- The `values` array built by `syncContact`. -/
def contactValues (c : Contact) : Except String (List (List String)) := do
  let ts ← JsDate.jsToISOString c.created_at
  pure [[ts, c.name, c.email, jsOrEmpty c.phone, jsOrEmpty c.company, c.message]]

/-- The `values` array built by `syncJobApplication`. -/
def jobApplicationValues (a : JobApplication) : Except String (List (List String)) := do
  let ts ← JsDate.jsToISOString a.created_at
  pure [[ts, a.full_name, a.email, a.phone, a.position, a.experience,
    jsOrEmpty a.cover_letter, jsOrEmpty a.resume_url, a.jobStatus]]

/-- The `values` array built by `syncGetStartedRequest`. -/
def getStartedValues (r : GetStartedRequest) : Except String (List (List String)) := do
  let ts ← JsDate.jsToISOString r.created_at
  pure [[ts, r.first_name, r.last_name, r.email, jsOrEmpty r.company,
    jsOrEmpty r.phone, jsOrEmpty r.job_title, jsOrEmpty r.message]]

/-- The `values` array built by `syncResumeUpload`. -/
def resumeUploadValues (r : ResumeUpload) : Except String (List (List String)) := do
  let ts ← JsDate.jsToISOString r.created_at
  pure [[ts, r.full_name, r.email, jsOrEmpty r.phone, jsOrEmpty r.location,
    jsOrEmpty r.position_interested, jsOrEmpty r.experience_level,
    jsOrEmpty r.skills, jsOrEmpty r.cover_letter, jsOrEmpty r.linkedin_url,
    jsOrEmpty r.portfolio_url, jsOrEmpty r.resume_url]]

/-- The `values` array built by `syncNewsletterSubscription`. -/
def newsletterValues (n : NewsletterSubscription) : Except String (List (List String)) := do
  let ts ← JsDate.jsToISOString n.subscribed_at
  pure [[ts, n.email]]

/-- Direct-mode `syncContact`: build the row, then `appendToSheet` against the
"Contacts" sheet.  A `RangeError` from the timestamp conversion rejects the
method's promise (`Except.error`). -/
def syncContact (cfg : Config) (outcome : FetchOutcome) (c : Contact) :
    Except String AppendTrace := do
  let values ← contactValues c
  pure (appendToSheet cfg sheetNamesContacts values outcome)

def syncJobApplication (cfg : Config) (outcome : FetchOutcome) (a : JobApplication) :
    Except String AppendTrace := do
  let values ← jobApplicationValues a
  pure (appendToSheet cfg sheetNamesJobApplications values outcome)

def syncGetStartedRequest (cfg : Config) (outcome : FetchOutcome) (r : GetStartedRequest) :
    Except String AppendTrace := do
  let values ← getStartedValues r
  pure (appendToSheet cfg sheetNamesGetStartedRequests values outcome)

def syncResumeUpload (cfg : Config) (outcome : FetchOutcome) (r : ResumeUpload) :
    Except String AppendTrace := do
  let values ← resumeUploadValues r
  pure (appendToSheet cfg sheetNamesResumeUploads values outcome)

def syncNewsletterSubscription (cfg : Config) (outcome : FetchOutcome)
    (n : NewsletterSubscription) : Except String AppendTrace := do
  let values ← newsletterValues n
  pure (appendToSheet cfg sheetNamesNewsletter values outcome)

/-! ### Proxy-mode client (`src/unnamed/part_000`)

Same row-building code, but the class talks to a local backend under
`/api/sync`.  Its `isConfigured` is `async`, and the class declares
`syncToServer` instead of `appendToSheet` — yet the sync methods still invoke
`this.appendToSheet(...)`. -/

/-- JSON body of a proxy `/api/sync/<endpoint>` response:
`{success, synced, error?}`. -/
structure SyncRespBody where
  success : Bool
  synced : Bool
  errMsg : Option String
deriving DecidableEq, Repr

/-- Outcome of the proxy `fetch` in `syncToServer`. -/
inductive SyncFetchOutcome where
  | throws (err : String)
  | responds (status : Nat) (body : SyncRespBody)
deriving DecidableEq, Repr

def syncStatusOk (status : Nat) : Bool := 200 ≤ status && status < 300

/-- `GoogleSheetsService.syncToServer` of the proxy-mode client: POST to the
backend, throw on a non-ok status or a `success:false` body, return the
`synced` flag on success; the surrounding `catch` converts every exception
into an error log and `false`.  (This method is declared by the class but
never reached by the sync methods — see `proxyClassMethods`.) -/
def syncToServer (outcome : SyncFetchOutcome) : Bool × List LogEvent :=
  match outcome with
  | .throws e => (false, [.error ("❌ Error syncing to Google Sheets: " ++ e)])
  | .responds status body =>
    if !syncStatusOk status then
      (false, [.error ("❌ Error syncing to Google Sheets: Sync failed: " ++ toString status)])
    else if body.success then
      (body.synced, [.log "✅ Successfully synced to Google Sheets"])
    else
      (false, [.error ("❌ Error syncing to Google Sheets: " ++ (body.errMsg.getD "Sync failed"))])

/-- The method names the proxy-mode `GoogleSheetsService` class declares
(read off the class body in `src/unnamed/part_000`). -/
def proxyClassMethods : List String :=
  ["isConfigured", "syncToServer", "syncContact", "syncJobApplication",
   "syncGetStartedRequest", "syncResumeUpload", "syncNewsletterSubscription",
   "initializeSheets"]

/-- Evaluating `this.appendToSheet(...)` inside a proxy-mode sync method:
the property lookup on the instance yields `undefined` when the class declares
no such method, and calling `undefined` throws a `TypeError`, which rejects
the async method's promise. -/
def proxyCallAppendToSheet (_sheetName : String) (_values : List (List String)) :
    Except String Bool :=
  if proxyClassMethods.contains "appendToSheet" then
    -- unreachable: the class declares no `appendToSheet`; Lean needs a value
    .ok false
  else
    .error "TypeError: this.appendToSheet is not a function"

/-- Proxy-mode `syncContact`: builds the same values array as the direct-mode
client, then evaluates `this.appendToSheet(...)`. -/
def proxySyncContact (c : Contact) : Except String Bool := do
  let values ← contactValues c
  proxyCallAppendToSheet sheetNamesContacts values

def proxySyncJobApplication (a : JobApplication) : Except String Bool := do
  let values ← jobApplicationValues a
  proxyCallAppendToSheet sheetNamesJobApplications values

def proxySyncGetStartedRequest (r : GetStartedRequest) : Except String Bool := do
  let values ← getStartedValues r
  proxyCallAppendToSheet sheetNamesGetStartedRequests values

def proxySyncResumeUpload (r : ResumeUpload) : Except String Bool := do
  let values ← resumeUploadValues r
  proxyCallAppendToSheet sheetNamesResumeUploads values

def proxySyncNewsletterSubscription (n : NewsletterSubscription) : Except String Bool := do
  let values ← newsletterValues n
  proxyCallAppendToSheet sheetNamesNewsletter values

/-! ### `initializeSheets` in both variants -/

/-- A JavaScript value as tested by `if (...)`: either a plain boolean or a
Promise object (which is truthy regardless of what it will resolve to). -/
inductive JsVal where
  | bool (b : Bool)
  | promiseBool (willResolveTo : Bool)
deriving DecidableEq, Repr

def jsTruthy : JsVal → Bool
  | .bool b => b
  | .promiseBool _ => true

/-- Direct-mode `initializeSheets`: guard `!this.isConfigured()` on the
synchronous boolean; warns and returns when not configured, otherwise logs
readiness.  No sheet headers or schema are created in either branch. -/
def directInitializeSheets (cfg : Config) : List LogEvent :=
  if !(jsTruthy (.bool (isConfigured cfg))) then
    [.warn "Google Sheets not configured. Skipping initialization."]
  else
    [.log "Google Sheets service initialized"]

/-- Proxy-mode `initializeSheets`: the guard is `!this.isConfigured()` where
`isConfigured` is `async`, so the guard tests the truthiness of a pending
Promise, not of the configured flag it would resolve to. -/
def proxyInitializeSheets (configured : Bool) : List LogEvent :=
  if !(jsTruthy (.promiseBool configured)) then
    [.warn "Google Sheets not configured. Skipping initialization."]
  else
    [.log "Google Sheets service initialized"]

/-! ### Background-sync combinator -/

/-- `withGoogleSheetsSync(supabaseOperation, syncOperation)`: await the primary
operation, dispatch the sync operation with a `.catch` that logs its failure,
and return the primary result.  `primaryResult` is the value the awaited
primary operation produced; `syncOutcome` is how the detached sync promise
settles (`Except.error` = rejection). -/
def withGoogleSheetsSync {α : Type} (primaryResult : α)
    (syncOutcome : Except String Bool) : α × List LogEvent :=
  (primaryResult,
    match syncOutcome with
    | .error e => [.error ("Background Google Sheets sync failed: " ++ e)]
    | .ok _ => [])

end GoogleSheets

namespace Upload

/-! ### Upload route (`src/server/routes/upload.ts`)

The image pipeline registered in `createServer` is
`app.post("/api/upload/image", uploadMiddleware, uploadImage)`, where
`uploadMiddleware = upload.single("image")` with a 5 MB `fileSize` limit and an
image-only `fileFilter`; `app.use("/api/uploads", express.static("uploads"))`
serves the persisted files; `app.delete("/api/upload/image", deleteImage)`
removes them.  `createServer` installs no error-handling middleware, so an
error passed to `next()` reaches Express's default handler, which sends an
unstructured response with the error's status — 500 for a `MulterError`,
which carries none. -/

/-- JavaScript `String.prototype.startsWith`. -/
def startsWithStr (pre s : String) : Bool := pre.data.isPrefixOf s.data

/-- The incoming multipart file as multer sees it before storing. -/
structure FileInfo where
  originalname : String
  mimetype : String
  size : Nat
deriving DecidableEq, Repr

/-- `limits: { fileSize: 5 * 1024 * 1024 }`. -/
def fileSizeLimit : Nat := 5 * 1024 * 1024

/-- `fileFilter`: accept iff the file's mimetype starts with `"image/"`;
otherwise `cb(null, false)` silently drops the file. -/
def fileFilterAccepts (f : FileInfo) : Bool := startsWithStr "image/" f.mimetype

/-- Node `path.extname`: the substring of the basename from its last dot,
or `""` when the basename has no dot or starts with its only dot. -/
def extname (p : String) : String :=
  let baseRev := p.data.reverse.takeWhile (· ≠ '/')
  let extRev := baseRev.takeWhile (· ≠ '.')
  if extRev.length == baseRev.length then ""          -- basename has no dot
  else if extRev.length + 1 == baseRev.length then "" -- the only dot leads the basename
  else String.mk ('.' :: extRev.reverse)

/-- The disk-storage filename: `image-<uniqueSuffix><ext>`, where the unique
suffix comes from `Date.now()` and `Math.random()` (a parameter here). -/
def storedFilename (uniqueSuffix : String) (originalname : String) : String :=
  "image-" ++ uniqueSuffix ++ extname originalname

/-- `req.file` after multer stored it. -/
structure StoredFile where
  originalname : String
  mimetype : String
  size : Nat
  filename : String
deriving DecidableEq, Repr

inductive MulterError where
  | limitFileSize
deriving DecidableEq, Repr

/-- `upload.single("image")`: no file field leaves `req.file` undefined; a
file rejected by `fileFilter` is drained and leaves `req.file` undefined with
nothing written to disk; an accepted file is written to the uploads directory
unless it exceeds the size limit, in which case multer aborts with
`MulterError(LIMIT_FILE_SIZE)` (removing anything it wrote) and passes the
error to `next()`.  The second component lists the filenames persisted in the
uploads directory. -/
def uploadMiddleware (incoming : Option FileInfo) (uniqueSuffix : String) :
    Except MulterError (Option StoredFile × List String) :=
  match incoming with
  | none => .ok (none, [])
  | some f =>
    if fileFilterAccepts f then
      if f.size > fileSizeLimit then .error .limitFileSize
      else
        let fn := storedFilename uniqueSuffix f.originalname
        .ok (some ⟨f.originalname, f.mimetype, f.size, fn⟩, [fn])
    else .ok (none, [])

/-- A response the image-upload route can send. -/
inductive HttpOut where
  /-- `res.json({success:true, data:{url, filename, size, mimetype}})`. -/
  | jsonOk (url : String) (filename : String) (size : Nat) (mimetype : String)
  /-- `res.status(s).json({success:false, error: msg})`: a structured error. -/
  | jsonErr (status : Nat) (errMsg : String)
  /-- Express's default error handler: an unstructured error page. -/
  | defaultError (status : Nat)
deriving DecidableEq, Repr

/-- The `uploadImage` handler body over `req.file`. -/
def uploadImage (file : Option StoredFile) : HttpOut :=
  match file with
  | none =>
    .jsonErr 400
      "No valid image file provided. Please upload a valid image file (PNG, JPG, GIF, etc.)"
  | some f =>
    if !startsWithStr "image/" f.mimetype then
      .jsonErr 400 "Only image files are allowed"
    else
      .jsonOk ("/api/uploads/" ++ f.filename) f.originalname f.size f.mimetype

/-- Observable result of one POST `/api/upload/image` request. -/
structure UploadOutcome where
  response : HttpOut
  persisted : List String
deriving DecidableEq, Repr

/-- The full route: middleware, then handler; a middleware error goes to the
default Express error handler (status 500, since `MulterError` sets no
status and `createServer` installs no error middleware). -/
def postUploadImage (incoming : Option FileInfo) (uniqueSuffix : String) : UploadOutcome :=
  match uploadMiddleware incoming uniqueSuffix with
  | .error _ => ⟨.defaultError 500, []⟩
  | .ok (file, stored) => ⟨uploadImage file, stored⟩

/-- `app.use("/api/uploads", express.static("uploads"))`: a URL is retrievable
iff it is `/api/uploads/<f>` for a persisted filename `f`. -/
def servesUploads (persisted : List String) (url : String) : Bool :=
  persisted.any (fun f => url == "/api/uploads/" ++ f)

/-- Following the claim's words: a structured 4xx-style client error, i.e. a
JSON `{success:false, error}` response with a 4xx status. -/
def isStructuredClientError : HttpOut → Bool
  | .jsonErr s _ => 400 ≤ s && s < 500
  | _ => false

/-! ### Image deletion (`deleteImage`)

`deleteImage` reads `url` from the JSON body; when it is truthy and starts
with `"/api/uploads/"` it computes `path.join(uploadsDir, path.basename(url))`
where `uploadsDir = path.join(process.cwd(), "uploads")`, and unlinks that
path if it exists; in every non-throwing case it answers
`{success:true, message:"Image deleted successfully"}`. -/

/-- Node posix `path.basename`: strip trailing slashes, then keep the part
after the last remaining slash (`"/"` for an all-slash path, `""` for `""`). -/
def basenameData (l : List Char) : List Char :=
  let stripped := l.reverse.dropWhile (· == '/')
  if stripped.isEmpty then (if l.isEmpty then [] else ['/'])
  else (stripped.takeWhile (· ≠ '/')).reverse

def basename (p : String) : String := String.mk (basenameData p.data)

/-- Parent directory of an absolute path: the part before the last slash
(kept faithful to Node's normalization of a trailing `..` path segment). -/
def parentDir (p : String) : String :=
  let beforeSlash := (p.data.reverse.dropWhile (· ≠ '/')).drop 1
  if beforeSlash.isEmpty then "/" else String.mk beforeSlash.reverse

/-- Node `path.join(dir, name)` for an absolute `dir` and a single slash-free
component `name` — the only shape `deleteImage` exercises, because
`path.basename` returns a slash-free component.  Node's normalization
resolves a `.` component to `dir` itself and a `..` component to `dir`'s
parent, and otherwise appends the component. -/
def joinComponent (dir name : String) : String :=
  if name == "." then dir
  else if name == ".." then parentDir dir
  else dir ++ "/" ++ name

inductive FsNode where
  | file
  | dir
deriving DecidableEq, Repr

/-- Filesystem contents, keyed by absolute path. -/
def Fs : Type := String → Option FsNode

def existsSync (fs : Fs) (p : String) : Bool := (fs p).isSome

/-- `fs.unlinkSync`: removes a file; throws on a directory (`EPERM`/`EISDIR`)
or a missing path (`ENOENT`). -/
def unlinkSync (fs : Fs) (p : String) : Except String Fs :=
  match fs p with
  | some .file => .ok (fun q => if q = p then none else fs q)
  | some .dir => .error "EPERM: operation not permitted, unlink"
  | none => .error "ENOENT: no such file or directory, unlink"

/-- The path `deleteImage` resolves for an accepted url. -/
def resolvedPath (cwd u : String) : String :=
  joinComponent (cwd ++ "/uploads") (basename u)

/-- `url && url.startsWith("/api/uploads/")`: a missing or empty url is falsy. -/
def urlAccepted : Option String → Bool
  | none => false
  | some u => !(u == "") && startsWithStr "/api/uploads/" u

/-- Observable result of one DELETE `/api/upload/image` request. -/
structure DeleteOutcome where
  status : Nat
  success : Bool
  message : String
  fs : Fs
  /-- The path actually unlinked, when the unlink succeeded. -/
  removed : Option String
  /-- Whether any filesystem call (`existsSync`/`unlinkSync`) was made. -/
  fsTouched : Bool

/-- The `deleteImage` handler.  `cwd` is `process.cwd()`; `fs` the filesystem
state; `url` the optional `url` field of the JSON body.  The `try`/`catch`
turns an unlink exception into a 500 `{success:false}` response; every other
path answers 200 `{success:true, message:"Image deleted successfully"}`. -/
def deleteImage (cwd : String) (fs : Fs) (url : Option String) : DeleteOutcome :=
  match url with
  | some u =>
    if !(u == "") && startsWithStr "/api/uploads/" u then
      let fp := resolvedPath cwd u
      if existsSync fs fp then
        match unlinkSync fs fp with
        | .ok fs' =>
          ⟨200, true, "Image deleted successfully", fs', some fp, true⟩
        | .error _ =>
          ⟨500, false, "Failed to delete image", fs, none, true⟩
      else ⟨200, true, "Image deleted successfully", fs, none, true⟩
    else ⟨200, true, "Image deleted successfully", fs, none, false⟩
  | none => ⟨200, true, "Image deleted successfully", fs, none, false⟩

/-- `p` is strictly inside `dir`: a direct child `dir ++ "/" ++ b` for a
non-empty slash-free component `b` that is not `.` or `..`. -/
def IsDirectChild (dir p : String) : Prop :=
  ∃ b : String, p = dir ++ "/" ++ b ∧ b ≠ "" ∧ (∀ c ∈ b.data, c ≠ '/') ∧
    b ≠ "." ∧ b ≠ ".."

end Upload

/-! ### Concrete fixtures used to instantiate the theorems -/

namespace GoogleSheets

def exampleConfig : Config := ⟨"sheet-id", "api-key"⟩

def unconfigured : Config := ⟨"", ""⟩

/-- A fetch outcome whose response reports success. -/
def successOutcome : FetchOutcome := .responds ⟨200, none⟩

/-- The Contact submission of the spec's worked example. -/
def exampleContact : Contact :=
  { name := "A", email := "a@x.com", phone := none, company := none
    message := "hi", created_at := "2024-01-01T00:00:00Z" }

def exampleJobApplication : JobApplication :=
  { full_name := "B", email := "b@x.com", phone := "1", position := "dev"
    experience := "2y", cover_letter := none, resume_url := none
    jobStatus := "new", created_at := "2024-01-01T00:00:00Z" }

def exampleGetStarted : GetStartedRequest :=
  { first_name := "C", last_name := "D", email := "c@x.com", company := none
    phone := none, job_title := none, message := none
    created_at := "2024-01-01T00:00:00Z" }

def exampleResumeUpload : ResumeUpload :=
  { full_name := "E", email := "e@x.com", phone := none, location := none
    position_interested := none, experience_level := none, skills := none
    cover_letter := none, linkedin_url := none, portfolio_url := none
    resume_url := none, created_at := "2024-01-01T00:00:00Z" }

def exampleNewsletter : NewsletterSubscription :=
  { email := "n@x.com", subscribed_at := "2024-01-01T00:00:00Z" }

end GoogleSheets

namespace Upload

def smallPng : FileInfo := ⟨"logo.png", "image/png", 1024⟩

def bigPng : FileInfo := ⟨"big.png", "image/png", 5 * 1024 * 1024 + 1⟩

def textFile : FileInfo := ⟨"notes.txt", "text/plain", 10⟩

/-- A small filesystem: working directory `/srv`, its uploads directory, and
one stored image. -/
def witnessFs : Fs := fun p =>
  if p = "/srv" then some .dir
  else if p = "/srv/uploads" then some .dir
  else if p = "/srv/uploads/image-1.png" then some .file
  else none

end Upload

/-! ## Theorems settling the claims -/

namespace GoogleSheets

/-- C1: for every sheet name, row data and outcome of the remote append call,
the direct-mode `appendToSheet` never raises: it returns `true` when the HTTP
response is successful, and returns `false` after logging when the response is
a 401 authorization failure, any other non-success status, or when the network
call throws — the four cases exhausting all fetch outcomes. -/
theorem appendToSheet_total_boolean (cfg : Config) (sheetName : String)
    (values : List (List String)) (outcome : FetchOutcome)
    (h : isConfigured cfg = true) :
    (∀ r, outcome = .responds r → r.ok = true →
      (appendToSheet cfg sheetName values outcome).result = true) ∧
    (∀ r, outcome = .responds r → r.status = 401 →
      (appendToSheet cfg sheetName values outcome).result = false ∧
        (appendToSheet cfg sheetName values outcome).logs ≠ []) ∧
    (∀ r, outcome = .responds r → r.ok = false → r.status ≠ 401 →
      (appendToSheet cfg sheetName values outcome).result = false ∧
        (appendToSheet cfg sheetName values outcome).logs ≠ []) ∧
    (∀ e, outcome = .throws e →
      (appendToSheet cfg sheetName values outcome).result = false ∧
        (appendToSheet cfg sheetName values outcome).logs ≠ []) := by
  refine ⟨?_, ?_, ?_, ?_⟩
  · rintro r rfl hok
    simp [appendToSheet, h, appendTryBody, hok]
  · rintro r rfl h401
    have hok : r.ok = false := by simp [HttpResp.ok, h401]
    simp [appendToSheet, h, appendTryBody, hok, h401]
  · rintro r rfl hok hne
    simp [appendToSheet, h, appendTryBody, hok, hne]
  · rintro e rfl
    simp [appendToSheet, h, appendTryBody]

/-- Witness for C1 at a concrete configuration and a 401 response. -/
theorem appendToSheet_total_boolean_witness :
    (appendToSheet exampleConfig "Contacts" [["x"]]
        (.responds ⟨401, none⟩)).result = false ∧
    (appendToSheet exampleConfig "Contacts" [["x"]]
        (.responds ⟨401, none⟩)).logs ≠ [] :=
  (appendToSheet_total_boolean exampleConfig "Contacts" [["x"]]
    (.responds ⟨401, none⟩) rfl).2.1 ⟨401, none⟩ rfl rfl

/-- C2: `withGoogleSheetsSync` returns exactly the primary operation's result;
a sync rejection is caught and logged; and the returned value does not depend
on the sync outcome at all. -/
theorem withGoogleSheetsSync_primary {α : Type} (primaryResult : α)
    (syncOutcome : Except String Bool) :
    (withGoogleSheetsSync primaryResult syncOutcome).1 = primaryResult ∧
    (∀ e, syncOutcome = .error e →
      (withGoogleSheetsSync primaryResult syncOutcome).2 =
        [.error ("Background Google Sheets sync failed: " ++ e)]) ∧
    (∀ syncOutcome' : Except String Bool,
      (withGoogleSheetsSync primaryResult syncOutcome).1 =
        (withGoogleSheetsSync primaryResult syncOutcome').1) := by
  refine ⟨rfl, ?_, fun _ => rfl⟩
  rintro e rfl
  rfl

/-- Witness for C2 at a concrete primary result and a rejecting sync. -/
theorem withGoogleSheetsSync_primary_witness :
    (withGoogleSheetsSync 42 (Except.error "boom")).1 = 42 ∧
    (withGoogleSheetsSync 42 (Except.error "boom")).2 =
      [LogEvent.error ("Background Google Sheets sync failed: " ++ "boom")] :=
  ⟨(withGoogleSheetsSync_primary 42 (Except.error "boom")).1,
   (withGoogleSheetsSync_primary 42 (Except.error "boom")).2.1 "boom" rfl⟩

/-- C5: when the direct-mode service is not configured, `appendToSheet`
returns false with a warning and without any network call; and `isConfigured`
is true iff both the spreadsheet id and the API key are non-empty. -/
theorem notConfigured_shortCircuit (cfg : Config) (sheetName : String)
    (values : List (List String)) (outcome : FetchOutcome) :
    (isConfigured cfg = false →
      (appendToSheet cfg sheetName values outcome).result = false ∧
      (appendToSheet cfg sheetName values outcome).networkCalled = false ∧
      (appendToSheet cfg sheetName values outcome).logs =
        [.warn "Google Sheets not configured. Skipping sync."]) ∧
    (isConfigured cfg = true ↔ (cfg.spreadsheetId ≠ "" ∧ cfg.apiKey ≠ "")) := by
  constructor
  · intro h
    simp [appendToSheet, h]
  · simp [isConfigured]

/-- Witness for C5 at the empty configuration. -/
theorem notConfigured_shortCircuit_witness :
    (appendToSheet unconfigured "Contacts" [["x"]] successOutcome).result = false ∧
    (appendToSheet unconfigured "Contacts" [["x"]] successOutcome).networkCalled = false :=
  ⟨((notConfigured_shortCircuit unconfigured "Contacts" [["x"]] successOutcome).1 rfl).1,
   ((notConfigured_shortCircuit unconfigured "Contacts" [["x"]] successOutcome).1 rfl).2.1⟩

/-- C9 (code bug): the direct-mode `initializeSheets` warns when unconfigured
and logs readiness when configured, as claimed; but the proxy-mode variant
negates the truthy Promise returned by its `async` `isConfigured`, so it logs
readiness even when the backend reports not configured and never reaches its
warning branch. -/
theorem initializeSheets_guard :
    directInitializeSheets unconfigured =
      [.warn "Google Sheets not configured. Skipping initialization."] ∧
    directInitializeSheets exampleConfig =
      [.log "Google Sheets service initialized"] ∧
    proxyInitializeSheets false = [.log "Google Sheets service initialized"] ∧
    proxyInitializeSheets true = [.log "Google Sheets service initialized"] :=
  ⟨rfl, rfl, rfl, rfl⟩

/-- C3 (code bug): every proxy-mode sync method evaluates
`this.appendToSheet(...)`, a method the proxy class does not declare, so each
call rejects with a `TypeError` instead of resolving to a boolean. -/
theorem proxySync_rejects :
    proxySyncContact exampleContact =
      .error "TypeError: this.appendToSheet is not a function" ∧
    proxySyncJobApplication exampleJobApplication =
      .error "TypeError: this.appendToSheet is not a function" ∧
    proxySyncGetStartedRequest exampleGetStarted =
      .error "TypeError: this.appendToSheet is not a function" ∧
    proxySyncResumeUpload exampleResumeUpload =
      .error "TypeError: this.appendToSheet is not a function" ∧
    proxySyncNewsletterSubscription exampleNewsletter =
      .error "TypeError: this.appendToSheet is not a function" :=
  ⟨rfl, rfl, rfl, rfl, rfl⟩

end GoogleSheets

namespace GoogleSheets

/-- C4: for each of the five form variants the built row has exactly the
documented column count and order (Contact 6, JobApplication 9,
GetStartedRequest 8, ResumeUpload 12, NewsletterSubscription 2) with the
normalized timestamp first and every missing optional field rendered as the
empty string; and the spec's worked Contact example yields `true` with an
append call carrying `["2024-01-01T00:00:00.000Z","A","a@x.com","","","hi"]`. -/
theorem mapToRow_shapes :
    (∀ (c : Contact) ts, JsDate.jsToISOString c.created_at = .ok ts →
      ∃ row, contactValues c = .ok [row] ∧ row.length = 6 ∧ row.head? = some ts ∧
        (c.phone = none → row.get? 3 = some "") ∧
        (c.company = none → row.get? 4 = some "")) ∧
    (∀ (a : JobApplication) ts, JsDate.jsToISOString a.created_at = .ok ts →
      ∃ row, jobApplicationValues a = .ok [row] ∧ row.length = 9 ∧
        row.head? = some ts ∧
        (a.cover_letter = none → row.get? 6 = some "") ∧
        (a.resume_url = none → row.get? 7 = some "")) ∧
    (∀ (r : GetStartedRequest) ts, JsDate.jsToISOString r.created_at = .ok ts →
      ∃ row, getStartedValues r = .ok [row] ∧ row.length = 8 ∧
        row.head? = some ts ∧
        (r.company = none → row.get? 4 = some "") ∧
        (r.phone = none → row.get? 5 = some "") ∧
        (r.job_title = none → row.get? 6 = some "") ∧
        (r.message = none → row.get? 7 = some "")) ∧
    (∀ (r : ResumeUpload) ts, JsDate.jsToISOString r.created_at = .ok ts →
      ∃ row, resumeUploadValues r = .ok [row] ∧ row.length = 12 ∧
        row.head? = some ts ∧
        (r.phone = none → row.get? 3 = some "") ∧
        (r.location = none → row.get? 4 = some "") ∧
        (r.position_interested = none → row.get? 5 = some "") ∧
        (r.experience_level = none → row.get? 6 = some "") ∧
        (r.skills = none → row.get? 7 = some "") ∧
        (r.cover_letter = none → row.get? 8 = some "") ∧
        (r.linkedin_url = none → row.get? 9 = some "") ∧
        (r.portfolio_url = none → row.get? 10 = some "") ∧
        (r.resume_url = none → row.get? 11 = some "")) ∧
    (∀ (n : NewsletterSubscription) ts,
      JsDate.jsToISOString n.subscribed_at = .ok ts →
      ∃ row, newsletterValues n = .ok [row] ∧ row.length = 2 ∧
        row.head? = some ts) ∧
    (∃ t, syncContact exampleConfig successOutcome exampleContact = .ok t ∧
      t.result = true ∧
      t.sent = some ("Contacts",
        [["2024-01-01T00:00:00.000Z", "A", "a@x.com", "", "", "hi"]])) := by
  refine ⟨?_, ?_, ?_, ?_, ?_, ?_⟩
  · intro c ts h
    refine ⟨[ts, c.name, c.email, jsOrEmpty c.phone, jsOrEmpty c.company, c.message],
      by simp [contactValues, h], rfl, rfl, ?_, ?_⟩ <;>
      (intro hp; simp [jsOrEmpty, hp])
  · intro a ts h
    refine ⟨[ts, a.full_name, a.email, a.phone, a.position, a.experience,
      jsOrEmpty a.cover_letter, jsOrEmpty a.resume_url, a.jobStatus],
      by simp [jobApplicationValues, h], rfl, rfl, ?_, ?_⟩ <;>
      (intro hp; simp [jsOrEmpty, hp])
  · intro r ts h
    refine ⟨[ts, r.first_name, r.last_name, r.email, jsOrEmpty r.company,
      jsOrEmpty r.phone, jsOrEmpty r.job_title, jsOrEmpty r.message],
      by simp [getStartedValues, h], rfl, rfl, ?_, ?_, ?_, ?_⟩ <;>
      (intro hp; simp [jsOrEmpty, hp])
  · intro r ts h
    refine ⟨[ts, r.full_name, r.email, jsOrEmpty r.phone, jsOrEmpty r.location,
      jsOrEmpty r.position_interested, jsOrEmpty r.experience_level,
      jsOrEmpty r.skills, jsOrEmpty r.cover_letter, jsOrEmpty r.linkedin_url,
      jsOrEmpty r.portfolio_url, jsOrEmpty r.resume_url],
      by simp [resumeUploadValues, h], rfl, rfl, ?_, ?_, ?_, ?_, ?_, ?_, ?_, ?_, ?_⟩ <;>
      (intro hp; simp [jsOrEmpty, hp])
  · intro n ts h
    exact ⟨[ts, n.email], by simp [newsletterValues, h], rfl, rfl⟩
  · exact ⟨_, rfl, rfl, rfl⟩

/-- Witness for C4 at the spec's worked Contact example. -/
theorem mapToRow_shapes_witness :
    ∃ row, contactValues exampleContact = .ok [row] ∧ row.length = 6 ∧
      row.head? = some "2024-01-01T00:00:00.000Z" ∧
      (exampleContact.phone = none → row.get? 3 = some "") ∧
      (exampleContact.company = none → row.get? 4 = some "") :=
  mapToRow_shapes.1 exampleContact "2024-01-01T00:00:00.000Z" rfl

end GoogleSheets

namespace Upload

theorem dropWhile_head_false {α} (p : α → Bool) (l : List α) {d : α} {rest : List α}
    (h : l.dropWhile p = d :: rest) : p d = false := by
  induction l with
  | nil => simp at h
  | cons a as ih =>
    rw [List.dropWhile_cons] at h
    by_cases hp : p a = true
    · rw [if_pos hp] at h; exact ih h
    · rw [if_neg hp] at h
      cases h
      simpa using hp

theorem basenameData_props (l : List Char) (h : ∃ c ∈ l, c ≠ '/') :
    basenameData l ≠ [] ∧ ∀ c ∈ basenameData l, c ≠ '/' := by
  obtain ⟨c0, hc0, hne0⟩ := h
  have hstr : l.reverse.dropWhile (· == '/') ≠ [] := by
    intro hnil
    have := List.dropWhile_eq_nil_iff.mp hnil c0 (by simpa using hc0)
    simp at this
    exact hne0 this
  obtain ⟨d, rest, hd⟩ := List.exists_cons_of_ne_nil hstr
  have hdslash : (d == '/') = false :=
    dropWhile_head_false (fun x => x == '/') l.reverse hd
  have hdne : d ≠ '/' := by simpa using hdslash
  have heq : basenameData l =
      ((d :: rest).takeWhile (fun c => decide (c ≠ '/'))).reverse := by
    unfold basenameData
    rw [hd]
    rfl
  have heq2 : basenameData l =
      (d :: rest.takeWhile (fun c => decide (c ≠ '/'))).reverse := by
    rw [heq, List.takeWhile_cons, if_pos (by simpa using hdne)]
  constructor
  · rw [heq2]; simp
  · intro c hc
    rw [heq2, List.mem_reverse] at hc
    rcases List.mem_cons.mp hc with h1 | h2
    · subst h1; exact hdne
    · have := List.mem_takeWhile_imp h2
      simpa using this

theorem basename_props (u : String) (h : ∃ c ∈ u.data, c ≠ '/') :
    basename u ≠ "" ∧ ∀ c ∈ (basename u).data, c ≠ '/' := by
  obtain ⟨hne, hforall⟩ := basenameData_props u.data h
  have hdata : (basename u).data = basenameData u.data := rfl
  constructor
  · intro hh
    apply hne
    rw [← hdata, hh]
  · intro c hc
    exact hforall c (by rw [← hdata]; exact hc)

theorem accepted_has_nonslash {u : String}
    (h : startsWithStr "/api/uploads/" u = true) : ∃ c ∈ u.data, c ≠ '/' := by
  obtain ⟨t, ht⟩ := List.isPrefixOf_iff_prefix.mp h
  refine ⟨'a', ?_, by decide⟩
  rw [← ht]
  exact List.mem_append_left t (by decide)

theorem parentDir_append (x : String) (hx : x ≠ "") :
    parentDir (x ++ "/uploads") = x := by
  obtain ⟨l⟩ := x
  have hlne : l ≠ [] := by
    intro h; exact hx (by rw [h])
  unfold parentDir
  have h1 : (String.mk l ++ "/uploads").data = l ++ "/uploads".data := rfl
  rw [h1, List.reverse_append]
  have h2 : "/uploads".data.reverse = ['s','d','a','o','l','p','u','/'] := by decide
  rw [h2]
  have h3 : List.dropWhile (fun c => decide (c ≠ '/'))
      (['s','d','a','o','l','p','u','/'] ++ l.reverse) = '/' :: l.reverse := by
    rw [List.dropWhile_append]
    rfl
  rw [h3]
  simp only [List.drop_succ_cons, List.drop_zero]
  rw [if_neg (by simp [hlne]), List.reverse_reverse]

/-- C6 (amended): a single-file request with an image content type under the
5 MB limit succeeds with the stored file's URL, which the static uploads mount
serves; a non-image content type yields a structured 400 error with nothing
persisted; a request over the size limit is rejected — but through Express's
default error handler as an unstructured 500 response (no error middleware is
installed), not as a structured 4xx client error. -/
theorem uploadRoute_accept_reject (f : FileInfo) (suffix : String) :
    (fileFilterAccepts f = true → f.size ≤ fileSizeLimit →
      (postUploadImage (some f) suffix).response =
        .jsonOk ("/api/uploads/" ++ storedFilename suffix f.originalname)
          f.originalname f.size f.mimetype ∧
      servesUploads (postUploadImage (some f) suffix).persisted
        ("/api/uploads/" ++ storedFilename suffix f.originalname) = true) ∧
    (fileFilterAccepts f = false →
      (postUploadImage (some f) suffix).response =
        .jsonErr 400
          "No valid image file provided. Please upload a valid image file (PNG, JPG, GIF, etc.)" ∧
      (postUploadImage (some f) suffix).persisted = []) ∧
    (fileFilterAccepts f = true → fileSizeLimit < f.size →
      postUploadImage (some f) suffix = ⟨.defaultError 500, []⟩) := by
  refine ⟨?_, ?_, ?_⟩
  · intro hacc hsize
    have hgt : ¬(f.size > fileSizeLimit) := by omega
    have hmw : uploadMiddleware (some f) suffix =
        .ok (some ⟨f.originalname, f.mimetype, f.size,
          storedFilename suffix f.originalname⟩,
          [storedFilename suffix f.originalname]) := by
      simp [uploadMiddleware, hacc, hgt]
    have hsw : startsWithStr "image/" f.mimetype = true := hacc
    constructor
    · simp [postUploadImage, hmw, uploadImage, hsw]
    · simp [postUploadImage, hmw, servesUploads]
  · intro hacc
    have hmw : uploadMiddleware (some f) suffix = .ok (none, []) := by
      simp [uploadMiddleware, hacc]
    exact ⟨by simp [postUploadImage, hmw, uploadImage], by simp [postUploadImage, hmw]⟩
  · intro hacc hsize
    have hmw : uploadMiddleware (some f) suffix = .error .limitFileSize := by
      simp [uploadMiddleware, hacc, hsize]
    simp [postUploadImage, hmw]

/-- Witness for C6 (amended) at a small PNG upload. -/
theorem uploadRoute_accept_reject_witness :
    (postUploadImage (some smallPng) "7").response =
      .jsonOk ("/api/uploads/" ++ storedFilename "7" smallPng.originalname)
        smallPng.originalname smallPng.size smallPng.mimetype ∧
    servesUploads (postUploadImage (some smallPng) "7").persisted
      ("/api/uploads/" ++ storedFilename "7" smallPng.originalname) = true :=
  (uploadRoute_accept_reject smallPng "7").1 rfl (by decide)

/-- Counterexample to C6 as stated: an image one byte over the 5 MB limit is
not answered with a structured 4xx client error — the route yields Express's
default unstructured 500 error response. -/
theorem uploadRoute_oversize_counterexample :
    isStructuredClientError (postUploadImage (some bigPng) "1").response = false ∧
    (postUploadImage (some bigPng) "1").response = .defaultError 500 := by
  constructor <;> decide

/-- C7: whatever URL the delete request carries, the only path `deleteImage`
ever unlinks is a direct child of the managed uploads directory, and the
filesystem is unchanged everywhere outside that directory; traversal
components in the URL collapse under `path.basename`, and the `.` / `..`
residues resolve to directories, on which the unlink fails harmlessly. -/
theorem deleteImage_confined (cwd : String) (fs : Fs) (url : Option String)
    (hcne : cwd ≠ "")
    (hcwd : fs cwd = some .dir)
    (hup : fs (cwd ++ "/uploads") = some .dir) :
    ((deleteImage cwd fs url).removed = none ∨
      ∃ p, (deleteImage cwd fs url).removed = some p ∧
        IsDirectChild (cwd ++ "/uploads") p) ∧
    (∀ q, (deleteImage cwd fs url).fs q ≠ fs q →
      IsDirectChild (cwd ++ "/uploads") q) := by
  cases url with
  | none => exact ⟨Or.inl rfl, fun q hq => absurd rfl hq⟩
  | some u =>
    by_cases hg : (!(u == "") && startsWithStr "/api/uploads/" u) = true
    · have hpre : startsWithStr "/api/uploads/" u = true := ((Bool.and_eq_true _ _).mp hg).2
      obtain ⟨hbne, hbslash⟩ := basename_props u (accepted_has_nonslash hpre)
      by_cases hdot : basename u = "."
      · have hfp : resolvedPath cwd u = cwd ++ "/uploads" := by
          simp [resolvedPath, joinComponent, hdot]
        have heq : deleteImage cwd fs (some u) =
            ⟨500, false, "Failed to delete image", fs, none, true⟩ := by
          simp [deleteImage, hg, hfp, existsSync, hup, unlinkSync]
        rw [heq]
        exact ⟨Or.inl rfl, fun q hq => absurd rfl hq⟩
      · by_cases hddot : basename u = ".."
        · have hfp : resolvedPath cwd u = cwd := by
            simp [resolvedPath, joinComponent, hdot, hddot, parentDir_append cwd hcne]
          have heq : deleteImage cwd fs (some u) =
              ⟨500, false, "Failed to delete image", fs, none, true⟩ := by
            simp [deleteImage, hg, hfp, existsSync, hcwd, unlinkSync]
          rw [heq]
          exact ⟨Or.inl rfl, fun q hq => absurd rfl hq⟩
        · have hfp : resolvedPath cwd u = cwd ++ "/uploads" ++ "/" ++ basename u := by
            simp [resolvedPath, joinComponent, hdot, hddot]
          have hchild : IsDirectChild (cwd ++ "/uploads")
              (cwd ++ "/uploads" ++ "/" ++ basename u) :=
            ⟨basename u, rfl, hbne, hbslash, hdot, hddot⟩
          rcases hval : fs (cwd ++ "/uploads" ++ "/" ++ basename u) with _ | node
          · have heq : deleteImage cwd fs (some u) =
                ⟨200, true, "Image deleted successfully", fs, none, true⟩ := by
              simp [deleteImage, hg, hfp, existsSync, hval]
            rw [heq]
            exact ⟨Or.inl rfl, fun q hq => absurd rfl hq⟩
          · cases node with
            | dir =>
              have heq : deleteImage cwd fs (some u) =
                  ⟨500, false, "Failed to delete image", fs, none, true⟩ := by
                simp [deleteImage, hg, hfp, existsSync, hval, unlinkSync]
              rw [heq]
              exact ⟨Or.inl rfl, fun q hq => absurd rfl hq⟩
            | file =>
              have heq : deleteImage cwd fs (some u) =
                  ⟨200, true, "Image deleted successfully",
                    (fun q => if q = cwd ++ "/uploads" ++ "/" ++ basename u then none
                      else fs q),
                    some (cwd ++ "/uploads" ++ "/" ++ basename u), true⟩ := by
                simp [deleteImage, hg, hfp, existsSync, hval, unlinkSync]
              rw [heq]
              refine ⟨Or.inr ⟨_, rfl, hchild⟩, ?_⟩
              intro q hq
              dsimp at hq
              by_cases hq2 : q = cwd ++ "/uploads" ++ "/" ++ basename u
              · rw [hq2]
                exact hchild
              · rw [if_neg hq2] at hq
                exact absurd rfl hq
    · have heq : deleteImage cwd fs (some u) =
          ⟨200, true, "Image deleted successfully", fs, none, false⟩ := by
        simp only [deleteImage]
        rw [if_neg hg]
      rw [heq]
      exact ⟨Or.inl rfl, fun q hq => absurd rfl hq⟩

/-- Witness for C7 at a concrete filesystem and a stored image's URL. -/
theorem deleteImage_confined_witness :
    (deleteImage "/srv" witnessFs (some "/api/uploads/image-1.png")).removed = none ∨
    ∃ p, (deleteImage "/srv" witnessFs (some "/api/uploads/image-1.png")).removed =
        some p ∧ IsDirectChild ("/srv" ++ "/uploads") p :=
  (deleteImage_confined "/srv" witnessFs (some "/api/uploads/image-1.png")
    (by decide) rfl rfl).1

/-- C8: deleting the URL of a non-existent (or already deleted) file still
answers the 200 success acknowledgment without raising and leaves the
filesystem untouched; and running `deleteImage` a second time on the first
run's resulting filesystem produces the same response and the same
filesystem as the first run. -/
theorem deleteImage_idempotent (cwd : String) (fs : Fs) (url : Option String) :
    (∀ u, url = some u → fs (resolvedPath cwd u) = none →
      (deleteImage cwd fs url).status = 200 ∧
      (deleteImage cwd fs url).success = true ∧
      (deleteImage cwd fs url).message = "Image deleted successfully" ∧
      (deleteImage cwd fs url).fs = fs) ∧
    ((deleteImage cwd (deleteImage cwd fs url).fs url).status =
        (deleteImage cwd fs url).status ∧
      (deleteImage cwd (deleteImage cwd fs url).fs url).success =
        (deleteImage cwd fs url).success ∧
      (deleteImage cwd (deleteImage cwd fs url).fs url).message =
        (deleteImage cwd fs url).message ∧
      (deleteImage cwd (deleteImage cwd fs url).fs url).fs =
        (deleteImage cwd fs url).fs) := by
  cases url with
  | none => exact ⟨(fun u h => nomatch h), rfl, rfl, rfl, rfl⟩
  | some u =>
    by_cases hg : (!(u == "") && startsWithStr "/api/uploads/" u) = true
    · have hne : ¬(u = "") := by
        have := ((Bool.and_eq_true _ _).mp hg).1
        simpa using this
      have hsw : startsWithStr "/api/uploads/" u = true := ((Bool.and_eq_true _ _).mp hg).2
      constructor
      · rintro u' heq hnone
        injection heq with heq'
        subst heq'
        have heq1 : deleteImage cwd fs (some u) =
            ⟨200, true, "Image deleted successfully", fs, none, true⟩ := by
          simp [deleteImage, hne, hsw, existsSync, hnone]
        refine ⟨?_, ?_, ?_, ?_⟩ <;> simp [heq1]
      · rcases hval : fs (resolvedPath cwd u) with _ | node
        · have heq1 : deleteImage cwd fs (some u) =
              ⟨200, true, "Image deleted successfully", fs, none, true⟩ := by
            simp [deleteImage, hne, hsw, existsSync, hval]
          refine ⟨?_, ?_, ?_, ?_⟩ <;> simp [heq1]
        · cases node with
          | dir =>
            have heq1 : deleteImage cwd fs (some u) =
                ⟨500, false, "Failed to delete image", fs, none, true⟩ := by
              simp [deleteImage, hne, hsw, existsSync, hval, unlinkSync]
            refine ⟨?_, ?_, ?_, ?_⟩ <;> simp [heq1]
          | file =>
            have heq1 : deleteImage cwd fs (some u) =
                ⟨200, true, "Image deleted successfully",
                  (fun q => if q = resolvedPath cwd u then none else fs q),
                  some (resolvedPath cwd u), true⟩ := by
              simp [deleteImage, hne, hsw, existsSync, hval, unlinkSync]
            have heq2 : deleteImage cwd
                (fun q => if q = resolvedPath cwd u then none else fs q) (some u) =
                ⟨200, true, "Image deleted successfully",
                  (fun q => if q = resolvedPath cwd u then none else fs q),
                  none, true⟩ := by
              simp [deleteImage, hne, hsw, existsSync, unlinkSync]
            refine ⟨?_, ?_, ?_, ?_⟩ <;> simp [heq1, heq2]
    · have heq1 : deleteImage cwd fs (some u) =
          ⟨200, true, "Image deleted successfully", fs, none, false⟩ := by
        simp only [deleteImage]
        rw [if_neg hg]
      constructor
      · rintro u' heqq hnone
        refine ⟨?_, ?_, ?_, ?_⟩ <;> simp [heq1]
      · refine ⟨?_, ?_, ?_, ?_⟩ <;> simp [heq1]

/-- Witness for C8 at the URL of a file that does not exist. -/
theorem deleteImage_idempotent_witness :
    (deleteImage "/srv" witnessFs (some "/api/uploads/ghost.png")).status = 200 ∧
    (deleteImage "/srv" witnessFs (some "/api/uploads/ghost.png")).success = true ∧
    (deleteImage "/srv" witnessFs (some "/api/uploads/ghost.png")).message =
      "Image deleted successfully" ∧
    (deleteImage "/srv" witnessFs (some "/api/uploads/ghost.png")).fs = witnessFs :=
  (deleteImage_idempotent "/srv" witnessFs (some "/api/uploads/ghost.png")).1
    "/api/uploads/ghost.png" rfl (by decide)

/-- C10: a delete request with no url, or a url not starting with
`/api/uploads/`, performs no filesystem call, changes nothing, and still
answers the very same 200 `{success:true, message:"Image deleted
successfully"}` body that an actual successful deletion answers — the caller
cannot tell an ignored request from a real deletion. -/
theorem deleteImage_ignored (cwd : String) (fs : Fs) (url : Option String)
    (h : urlAccepted url = false) :
    (deleteImage cwd fs url).fsTouched = false ∧
    (deleteImage cwd fs url).fs = fs ∧
    (deleteImage cwd fs url).status = 200 ∧
    (deleteImage cwd fs url).success = true ∧
    (deleteImage cwd fs url).message = "Image deleted successfully" ∧
    (∀ (cwd' : String) (fs' : Fs) (url' : Option String) (p : String),
      (deleteImage cwd' fs' url').removed = some p →
      (deleteImage cwd' fs' url').status = 200 ∧
      (deleteImage cwd' fs' url').success = true ∧
      (deleteImage cwd' fs' url').message = "Image deleted successfully") := by
  have hmain : ∀ (cwd' : String) (fs' : Fs) (url' : Option String) (p : String),
      (deleteImage cwd' fs' url').removed = some p →
      (deleteImage cwd' fs' url').status = 200 ∧
      (deleteImage cwd' fs' url').success = true ∧
      (deleteImage cwd' fs' url').message = "Image deleted successfully" := by
    intro cwd' fs' url' p hrem
    cases url' with
    | none => simp [deleteImage] at hrem
    | some u' =>
      by_cases hg : (!(u' == "") && startsWithStr "/api/uploads/" u') = true
      · have hne : ¬(u' = "") := by
          have := ((Bool.and_eq_true _ _).mp hg).1
          simpa using this
        have hsw : startsWithStr "/api/uploads/" u' = true :=
          ((Bool.and_eq_true _ _).mp hg).2
        rcases hval : fs' (resolvedPath cwd' u') with _ | node
        · have heq : deleteImage cwd' fs' (some u') =
              ⟨200, true, "Image deleted successfully", fs', none, true⟩ := by
            simp [deleteImage, hne, hsw, existsSync, hval]
          refine ⟨?_, ?_, ?_⟩ <;> simp [heq]
        · cases node with
          | dir =>
            have heq : deleteImage cwd' fs' (some u') =
                ⟨500, false, "Failed to delete image", fs', none, true⟩ := by
              simp [deleteImage, hne, hsw, existsSync, hval, unlinkSync]
            rw [heq] at hrem
            simp at hrem
          | file =>
            have heq : deleteImage cwd' fs' (some u') =
                ⟨200, true, "Image deleted successfully",
                  (fun q => if q = resolvedPath cwd' u' then none else fs' q),
                  some (resolvedPath cwd' u'), true⟩ := by
              simp [deleteImage, hne, hsw, existsSync, hval, unlinkSync]
            refine ⟨?_, ?_, ?_⟩ <;> simp [heq]
      · have heq : deleteImage cwd' fs' (some u') =
            ⟨200, true, "Image deleted successfully", fs', none, false⟩ := by
          simp only [deleteImage]
          rw [if_neg hg]
        refine ⟨?_, ?_, ?_⟩ <;> simp [heq]
  cases url with
  | none => exact ⟨rfl, rfl, rfl, rfl, rfl, hmain⟩
  | some u =>
    have hgu : ¬((!(u == "") && startsWithStr "/api/uploads/" u) = true) := by
      intro hx
      have h' : urlAccepted (some u) = true := hx
      rw [h'] at h
      exact absurd h (by decide)
    have heq : deleteImage cwd fs (some u) =
        ⟨200, true, "Image deleted successfully", fs, none, false⟩ := by
      simp only [deleteImage]
      rw [if_neg hgu]
    rw [heq]
    exact ⟨rfl, rfl, rfl, rfl, rfl, hmain⟩

/-- Witness for C10 at a url outside the uploads namespace. -/
theorem deleteImage_ignored_witness :
    (deleteImage "/srv" witnessFs (some "/definitely/not")).fsTouched = false ∧
    (deleteImage "/srv" witnessFs (some "/definitely/not")).status = 200 :=
  ⟨(deleteImage_ignored "/srv" witnessFs (some "/definitely/not") (by decide)).1,
   (deleteImage_ignored "/srv" witnessFs (some "/definitely/not") (by decide)).2.2.1⟩

end Upload
